import Mathlib

/-!
Verification development for the market-intelligence pipeline
(news collection, summarization, hot-stock detection, cross-linking,
report composition).

The Python sources are embedded shallowly:

* A Python dict field read with `d.get(k, default)` is modelled by an
  `Option`-typed field: `none` means the key is absent.  Where a key can
  also be present with a JSON `null` value (as happens with real provider
  payloads decoded by `response.json()`), the field is modelled as
  `Option (Option String)`: `none` = key absent, `some none` = key present
  holding `null`, `some (some s)` = key present holding the string `s`.
* Network calls and the text-generation backend are modelled as explicit
  input data (one outcome per issued request), so the control flow around
  them (retry, per-term exception handling) becomes pure recursion.
* Python floats are modelled as rationals (`ℚ`); `x / 0` cases that
  would produce IEEE infinities are excluded by explicit non-zero
  hypotheses where they matter.
* `datetime.now()` is modelled as an explicit `today : String` parameter.
-/

/-! ## Collector (`news_collector.py`, `NewsCollector.get_market_news`) -/

/-- A raw provider article as decoded from JSON.  Each plain field is
`none` (key absent), `some none` (key present with `null`), or
`some (some s)`.  The `source` field models the lookup of the source key
(default: empty dict) followed by the lookup of its name key (default:
empty string): `none` = no source key, `some nm` = source present as a
dict whose name-lookup state is `nm`.  (A source key holding `null` would
raise in the Python code and is not modelled.) -/
structure RawArticle where
  title : Option (Option String)
  description : Option (Option String)
  content : Option (Option String)
  url : Option (Option String)
  source : Option (Option (Option String))
  publishedAt : Option (Option String)
  author : Option (Option String)
deriving DecidableEq

/-- A Python dict of article data as used downstream of the collector
(string-or-`None` values; `none` here means the key is absent). -/
structure PyArticle where
  title : Option String
  description : Option String
  content : Option String
  url : Option String
  source : Option String
  publishedAt : Option String
  author : Option String
  summary : Option String
deriving DecidableEq

/-- A dict read with empty-string default, on a field whose lookup state
is `v`: an absent key yields the empty-string default; a present key
yields its value unchanged — including `null` (`some none` ↦ `none`). -/
def pyGetEmpty (v : Option (Option String)) : Option String :=
  match v with
  | none => some ""
  | some w => w

/-- The normalization step of `get_market_news` (lines 90–101): build the
`formatted_article` dict.  The formatted dict has no `summary` key. -/
def formatArticle (a : RawArticle) : PyArticle :=
  { title := pyGetEmpty a.title
    description := pyGetEmpty a.description
    content := pyGetEmpty a.content
    url := pyGetEmpty a.url
    source := match a.source with
      | none => some ""
      | some nm => pyGetEmpty nm
    publishedAt := pyGetEmpty a.publishedAt
    author := pyGetEmpty a.author
    summary := none }

/-- The url lookup with no default: the dedup identity key.  Both an
absent key and a present `null` give Python `None` (`none`). -/
def urlKey (a : RawArticle) : Option String := a.url.join

/-- One iteration of the dedup loop (lines 73–75): append `a` unless some
already-accepted article has the same `url` key. -/
def addIfNew (acc : List RawArticle) (a : RawArticle) : List RawArticle :=
  if acc.any (fun b => urlKey b == urlKey a) then acc else acc ++ [a]

/-- The outcome of one per-keyword fetch, seen from the collector:
the request raised (`requests` exception or any other exception caught by
the inner handlers, lines 81–84), or returned JSON whose `status` is not
`ok` (line 78), or returned a list of articles (line 71). -/
inductive FetchOutcome where
  | transportError : FetchOutcome
  | statusNotOk : FetchOutcome
  | ok (articles : List RawArticle) : FetchOutcome
deriving DecidableEq

/-- Processing of one per-keyword outcome against the accumulated
`all_articles` list: only a successful fetch contributes articles; both
failure outcomes leave the accumulator unchanged and the loop continues. -/
def stepOutcome (acc : List RawArticle) (r : FetchOutcome) : List RawArticle :=
  match r with
  | .ok articles => articles.foldl addIfNew acc
  | _ => acc

/-- The keyword loop of `get_market_news` (lines 52–84), given the
per-keyword outcomes in keyword order.  `keywords[:3]` caps the issued
requests at the first three terms. -/
def collectOutcomes (outcomes : List FetchOutcome) : List RawArticle :=
  outcomes.foldl stepOutcome []

/-- `get_market_news` (lines 38–104): issue the first three keyword
queries, merge with URL dedup, truncate to `max_articles`, normalize. -/
def getMarketNews (outcomes : List FetchOutcome) (maxArticles : Nat) : List PyArticle :=
  ((collectOutcomes (outcomes.take 3)).take maxArticles).map formatArticle

/-- The articles of a successful outcome, `[]` otherwise. -/
def okArticles (r : FetchOutcome) : List RawArticle :=
  match r with
  | .ok articles => articles
  | _ => []

/-- All provider articles in query-term order, then provider order within
a term (failed terms contribute nothing). -/
def flattenOk (outcomes : List FetchOutcome) : List RawArticle :=
  (outcomes.map okArticles).flatten

/-- Modelled from the spec: the dedup rule stated declaratively — keep an
article iff it is the first element of the stream carrying its `url`
identity key (first-seen wins, order preserved).  Used as the reference
against which the accumulator loop is proved. -/
def dedupFirstSeen (l : List RawArticle) : List RawArticle :=
  match l with
  | [] => []
  | a :: t => a :: dedupFirstSeen (t.filter (fun b => !(urlKey a == urlKey b)))
termination_by l.length
decreasing_by
  simp only [List.length_cons]
  exact Nat.lt_succ_of_le (List.length_filter_le _ t)

/-! ## Summarizer (`news_summarizer.py`, `NewsSummarizer`) -/

/-- One backend outcome for one attempted `ChatCompletion.create` call:
success with the returned message content, a rate-limit error, an API
error, or any other exception. -/
inductive BackendOutcome where
  | ok (text : String) : BackendOutcome
  | rateLimit : BackendOutcome
  | apiError : BackendOutcome
  | genericError : BackendOutcome
deriving DecidableEq

/-- Python `str.strip()`: drop whitespace from both ends. -/
def pyStrip (s : String) : String :=
  String.mk (((s.data.dropWhile Char.isWhitespace).reverse.dropWhile Char.isWhitespace).reverse)

/-- `summarize_news` (lines 28–86) run against a script of backend
outcomes, one per attempt.  Returns `some (n, text)`: `n` is the number of
60-second cool-down sleeps performed and `text` the returned string; on
`RateLimitError` the code sleeps and calls itself again (line 78) with no
retry counter, consuming the next scripted outcome.  `none` means the
script was exhausted while the code was still retrying — within the given
attempt budget the call has not returned. -/
def summarizeNews (title : String) : List BackendOutcome → Option (Nat × String)
  | [] => none
  | .ok text :: _ => some (0, pyStrip text)
  | .rateLimit :: rest =>
    match summarizeNews title rest with
    | some (n, r) => some (n + 1, r)
    | none => none
  | .apiError :: _ => some (0, "要約エラー: " ++ title)
  | .genericError :: _ => some (0, "要約エラー: " ++ title)

/-- Provider article used as the C7 counterexample: the `author` key is
present but holds JSON `null` (as real provider payloads routinely do). -/
def nullAuthorRaw : RawArticle :=
  { title := some (some "Fed raises rates")
    description := none
    content := none
    url := some (some "https://example.com/a1")
    source := some (some (some "Example Wire"))
    publishedAt := some (some "2026-10-11T09:00:00Z")
    author := some none }

/-- Provider article with every key absent except two string fields; used
to witness the amended C7 statement. -/
def rawDefaultsW : RawArticle :=
  { title := none
    description := some (some "desc")
    content := none
    url := some (some "https://example.com/a2")
    source := none
    publishedAt := none
    author := none }

/-! ## Hot-stock detector (`hot_stock_collector.py`, `identify_hot_stocks`) -/

/-- One row of the price/volume history of a symbol (the Close and
Volume columns); Python floats are modelled as rationals. -/
structure Row where
  close : ℚ
  volume : ℚ
deriving DecidableEq

/-- Junk row used only as the `Option.getD` default when indexing; the
`rows.length < 2` guard means it is never observed. -/
def dRow : Row := ⟨0, 0⟩

/-- The mean of the Volume column without its last row (line 54): sum
over count of the all-but-last volumes. -/
def avgVolumeOf (rows : List Row) : ℚ :=
  (rows.dropLast.map Row.volume).sum / (rows.dropLast.length : ℚ)

/-- The last entry of the Volume column (line 55). -/
def lastVolumeOf (rows : List Row) : ℚ := ((rows.getLast?).getD dRow).volume

/-- `last_volume / avg_volume if avg_volume > 0 else 0` (line 56): the
zero-or-negative trailing mean is guarded to ratio 0. -/
def volumeRatioOf (rows : List Row) : ℚ :=
  if 0 < avgVolumeOf rows then lastVolumeOf rows / avgVolumeOf rows else 0

/-- The last entry of the Close column (line 58). -/
def lastCloseOf (rows : List Row) : ℚ := ((rows.getLast?).getD dRow).close

/-- The second-to-last entry of the Close column (line 58). -/
def prevCloseOf (rows : List Row) : ℚ := ((rows.dropLast.getLast?).getD dRow).close

/-- The fractional day-over-day close delta of line 58: last close minus
previous close, over previous close.  Rational division is total with `x / 0 = 0`, whereas numpy
would give an infinity; theorems that depend on this value therefore
assume `prevCloseOf rows ≠ 0`. -/
def priceChangeOf (rows : List Row) : ℚ :=
  (lastCloseOf rows - prevCloseOf rows) / prevCloseOf rows

/-- Python `abs` on a (rational-modelled) float. -/
def pyAbs (q : ℚ) : ℚ := if q < 0 then -q else q

/-- Reason text of line 61 (the `:.1f` float formatting is abstracted by
`toString`; no claim inspects the digits). -/
def volumeReason (vr : ℚ) : String := "出来高が過去平均の" ++ toString vr ++ "倍"

/-- Reason text of line 63 (same formatting abstraction). -/
def priceChangeReason (pc : ℚ) : String := "株価が前日比" ++ toString (pc * 100) ++ "%変動"

/-- The per-symbol record appended to `hot_stocks` (lines 65–70). -/
structure HotStock where
  symbol : String
  volumeRatioVal : ℚ
  priceChange : ℚ
  reasons : List String
deriving DecidableEq

/-- The per-symbol body of the `identify_hot_stocks` loop (lines 50–70):
skip series with fewer than 2 points, evaluate the two threshold checks
independently (both `≥`, so boundaries are inclusive), collect the fired
reasons in volume-then-price order, and emit a record iff at least one
reason fired. -/
def mkSignal (vt pt : ℚ) (sym : String) (rows : List Row) : Option HotStock :=
  if rows.length < 2 then none
  else
    let reasons :=
      (if vt ≤ volumeRatioOf rows then [volumeReason (volumeRatioOf rows)] else [])
        ++ (if pt ≤ pyAbs (priceChangeOf rows) then [priceChangeReason (priceChangeOf rows)] else [])
    if reasons.isEmpty then none
    else some ⟨sym, volumeRatioOf rows, priceChangeOf rows, reasons⟩

/-- `identify_hot_stocks` (lines 38–73): iterate the symbol map in
insertion order, emitting the per-symbol signals that fired. -/
def identify_hot_stocks (stockData : List (String × List Row)) (vt pt : ℚ) : List HotStock :=
  stockData.filterMap (fun p => mkSignal vt pt p.1 p.2)

/-- The end-to-end example series of the spec: volumes 100,100,100,100,500 and
closes 10,10,10,10,10.6. -/
def rows3 : List Row := [⟨10, 100⟩, ⟨10, 100⟩, ⟨10, 100⟩, ⟨10, 100⟩, ⟨53/5, 500⟩]

/-- A series whose all-but-last volumes are zero (trailing mean 0) and
whose close still moves 6%. -/
def rowsZeroVol : List Row := [⟨10, 0⟩, ⟨53/5, 500⟩]

/-! ## Cross-linker (`hot_stock_collector.py`, `link_news_to_stock`) -/

/-- Python string split on the dot separator, over a character list:
always returns at least one (possibly empty) piece. -/
def splitDotChars : List Char → List (List Char)
  | [] => [[]]
  | c :: t =>
    match splitDotChars t with
    | [] => [[]]
    | h :: r => if c = '.' then [] :: h :: r else (c :: h) :: r

/-- Element 0 of the dot-split of the symbol (line 87): the part of the
symbol before its FIRST dot (the whole symbol when it has no dot; the
empty string for the empty symbol). -/
def firstDotField (s : String) : String :=
  String.mk ((splitDotChars s.data).headD [])

/-- The Python substring operator (needle in hay): contiguous,
case-sensitive. -/
def strIn (needle hay : String) : Bool :=
  hay.data.tails.any (fun t => needle.data.isPrefixOf t)

/-- A related-news record built by `link_news_to_stock` (lines 88–92). -/
structure RelatedNews where
  title : String
  summary : String
  url : String
deriving DecidableEq

/-- `link_news_to_stock` (lines 75–93): keep, in input order, every
article whose title contains the first-dot prefix of the symbol or the
full symbol, projecting it to (title, summary, url) with empty-string
defaults. -/
def link_news_to_stock (stock_symbol : String) (news_articles : List PyArticle) : List RelatedNews :=
  news_articles.filterMap (fun article =>
    let title := article.title.getD ""
    if strIn (firstDotField stock_symbol) title || strIn stock_symbol title then
      some ⟨title, article.summary.getD "", article.url.getD ""⟩
    else none)

/-- The projection an accepted article undergoes in `link_news_to_stock`. -/
def relatedOf (article : PyArticle) : RelatedNews :=
  ⟨article.title.getD "", article.summary.getD "", article.url.getD ""⟩

/-- Modelled from the spec: the C5 matching rule as worded strips the
text after the LAST dot of the symbol (the exchange suffix); a symbol
without a dot is left whole. -/
def lastDotStripped (s : String) : String :=
  if s.data.contains '.' then
    String.mk (((s.data.reverse.dropWhile (fun c => !(c = '.'))).drop 1).reverse)
  else s

/-- Modelled from the spec: the C5 linking condition — the symbol, or the
symbol with its exchange suffix (after the last dot) stripped, is a
substring of the title. -/
def specLinkCond (symbol title : String) : Prop :=
  strIn symbol title = true ∨ strIn (lastDotStripped symbol) title = true

/-- An article dict with every key absent. -/
def emptyPyArticle : PyArticle :=
  ⟨none, none, none, none, none, none, none, none⟩

/-- The C5 counterexample article: its title contains `"A"` but neither
`"A.B"` nor `"A.B.C"`. -/
def artXAy : PyArticle := { emptyPyArticle with title := some "xAy" }

/-! ## Batch summarization (`news_summarizer.py`, `summarize_multiple_articles`) -/

/-- Lines 103–105: the content lookup with empty-string default, falling
back to `description` when that is empty (Python falsiness of the empty
string). -/
def effectiveContent (article : PyArticle) : String :=
  if article.content.getD "" == "" then article.description.getD ""
  else article.content.getD ""

/-- `summarize_multiple_articles` (lines 88–131) with the per-item
`summarize_news` call abstracted as a pure oracle (its own retry
behaviour is treated separately): items whose effective content is empty
are skipped with `continue` (line 109) — no placeholder, no output entry;
all other items are copied with a `summary` key added, in input order. -/
def summarize_multiple_articles (summarizeOracle : String → String → String)
    (articles : List PyArticle) : List PyArticle :=
  articles.filterMap (fun article =>
    if effectiveContent article == "" then none
    else some { article with
      summary := some (summarizeOracle (effectiveContent article) (article.title.getD "")) })

/-! ## Report composers (`email_sender.py` line 91–143, `04_hot_stocks/main.py` line 72–97) -/

/-- The 80-character separator rule used by both report templates. -/
def barLine : String :=
  "━━━━━━━━━━━━━━━━━━━━━━━━━━━━━━━━━━━━━━━━━━━━━━━━━━━━━━━━━━━━━━━━━━━━━━━━━━━━━━━━"

/-- One numbered article block of the market report (lines 120–131);
`enumerate(..., 1)` supplies the 1-based index. -/
def mArticleBlock (i : Nat) (article : PyArticle) : String :=
  "\n" ++ toString i ++ ". " ++ article.title.getD "Unknown"
    ++ "\n    出典: " ++ article.source.getD "Unknown"
    ++ "\n    公開日: " ++ article.publishedAt.getD "Unknown"
    ++ "\n    \n    要約:\n    " ++ article.summary.getD "No summary"
    ++ "\n    \n    詳細: " ++ article.url.getD "No URL"
    ++ "\n    \n"

/-- The article loop of `create_market_report_email`, from index `i`. -/
def mArticlesSection : Nat → List PyArticle → String
  | _, [] => ""
  | i, article :: rest => mArticleBlock i article ++ mArticlesSection (i + 1) rest

/-- `create_market_report_email` (lines 91–143): header/date, daily
summary, top-5 article details, fixed disclaimer footer. -/
def create_market_report_email (today daily_summary : String)
    (summarized_articles : List PyArticle) : String :=
  "\n市場情報自動収集・分析システム - 日次レポート\n" ++ today ++ "\n\n" ++ barLine
    ++ "\n\n【本日の市場動向サマリー】\n" ++ daily_summary ++ "\n\n" ++ barLine
    ++ "\n\n【主要ニュース詳細】\n\n"
    ++ mArticlesSection 1 (summarized_articles.take 5)
    ++ ("\n" ++ barLine
        ++ "\n\n※ このレポートは自動生成されています。\n※ 投資判断は必ずご自身で行ってください。\n※ 本システムは投資助言を行うものではありません。\n\n"
        ++ barLine ++ "\n")

/-- A hot-stock record as consumed by the report loop of
`create_hot_stock_report_email`: its symbol, reasons and related_news
entries (for related_news an absent key and an empty list behave
identically — both are falsy — so both are modelled as `[]`). -/
structure ReportStock where
  symbol : String
  reasons : List String
  relatedNews : List RelatedNews
deriving DecidableEq

/-- The reasons loop (lines 83–84). -/
def reasonLines : List String → String
  | [] => ""
  | r :: t => "  - " ++ r ++ "\n" ++ reasonLines t

/-- The related-news loop (lines 87–88). -/
def relatedNewsLines : List RelatedNews → String
  | [] => ""
  | n :: t => "    ・" ++ n.title ++ "\n      " ++ n.summary ++ "\n      " ++ n.url ++ "\n"
      ++ relatedNewsLines t

/-- One stock block of the hot-stock report (lines 81–89). -/
def hotStockBlock (stock : ReportStock) : String :=
  "■ " ++ stock.symbol ++ "\n" ++ reasonLines stock.reasons
    ++ (if stock.relatedNews.isEmpty then ""
        else "  関連ニュース:\n" ++ relatedNewsLines stock.relatedNews)
    ++ "\n"

/-- The stock loop of `create_hot_stock_report_email`. -/
def hotStocksSection : List ReportStock → String
  | [] => ""
  | s :: t => hotStockBlock s ++ hotStocksSection t

/-- `create_hot_stock_report_email` (`04_hot_stocks/main.py` lines
72–97): header/date, per-stock blocks, fixed disclaimer footer. -/
def create_hot_stock_report_email (today : String) (hot_stocks : List ReportStock) : String :=
  "\n動きのあった会社・注目銘柄自動抽出レポート\n" ++ today ++ "\n\n" ++ barLine ++ "\n\n"
    ++ hotStocksSection hot_stocks
    ++ ("\n" ++ barLine
        ++ "\n\n※ 本レポートは自動生成です。投資判断は必ずご自身で行ってください。\n\n"
        ++ barLine ++ "\n")

/-- Substring-containment at the string level: `hay` splits around
`needle`. -/
def strContains (needle hay : String) : Prop :=
  ∃ pre post, hay = pre ++ needle ++ post

/-! # Theorems -/

/-- C1: the spec states that on a rate-limit signal `summarize_news`
sleeps one fixed cool-down and retries exactly once, so that against an
always-throttling backend it terminates via the failure path.  The code
instead re-enters itself on every `RateLimitError` with no bound: (a) for
every `n`, a script of `n` consecutive throttles leaves the call still
retrying (no failure-path return ever happens); (b) after two consecutive
throttles a third attempt is still issued and its success is returned
(with two cool-down sleeps), contradicting the single-retry bound. -/
theorem summarize_news_unbounded_retry :
    (∀ (title : String) (n : Nat),
      summarizeNews title (List.replicate n BackendOutcome.rateLimit) = none)
    ∧ summarizeNews "t"
        [BackendOutcome.rateLimit, BackendOutcome.rateLimit, BackendOutcome.ok "fresh"]
      = some (2, "fresh") := by
  constructor
  · intro title n
    induction n with
    | zero => rfl
    | succ m ih => simp [List.replicate_succ, summarizeNews, ih]
  · rfl

/-- The accumulator loop of the dedup step, started from any
intermediate `all_articles` list, equals that list followed by the declarative
first-seen dedup of the not-yet-represented articles. -/
theorem foldl_addIfNew_eq (l : List RawArticle) (acc : List RawArticle) :
    l.foldl addIfNew acc
      = acc ++ dedupFirstSeen (l.filter (fun a => !(acc.any (fun b => urlKey b == urlKey a)))) := by
  induction l generalizing acc with
  | nil => simp [dedupFirstSeen]
  | cons a t ih =>
    by_cases h : acc.any (fun b => urlKey b == urlKey a) = true
    · rw [List.foldl_cons, addIfNew, if_pos h, ih]
      simp [List.filter_cons, h]
    · rw [List.foldl_cons, addIfNew, if_neg h, ih]
      rw [List.filter_cons]
      simp only [Bool.not_eq_true] at h
      simp only [h, Bool.not_false, if_pos]
      rw [dedupFirstSeen]
      rw [List.append_assoc, List.singleton_append]
      congr 1
      rw [List.filter_filter]
      have hpred : (fun (x : RawArticle) => !(acc ++ [a]).any fun b => urlKey b == urlKey x)
          = (fun x => (!(urlKey a == urlKey x)) && (!(acc.any fun b => urlKey b == urlKey x))) := by
        funext x
        simp [List.any_append, Bool.not_or, Bool.and_comm]
      rw [hpred]

/-- Folding the per-keyword outcomes is the same as folding the flattened
successful articles one by one. -/
theorem foldl_stepOutcome_eq_flatten (outcomes : List FetchOutcome) (acc : List RawArticle) :
    outcomes.foldl stepOutcome acc = (flattenOk outcomes).foldl addIfNew acc := by
  induction outcomes generalizing acc with
  | nil => rfl
  | cons r t ih =>
    cases r with
    | ok articles => simp [flattenOk, stepOutcome, List.foldl_append, ih, okArticles]
    | transportError => simp [flattenOk, stepOutcome, ih, okArticles]
    | statusNotOk => simp [flattenOk, stepOutcome, ih, okArticles]

/-- The collector merge loop computes exactly the declarative
first-seen dedup of the query-term-major article stream. -/
theorem collectOutcomes_eq_dedup (outcomes : List FetchOutcome) :
    collectOutcomes outcomes = dedupFirstSeen (flattenOk outcomes) := by
  rw [collectOutcomes, foldl_stepOutcome_eq_flatten, foldl_addIfNew_eq]
  simp

/-- Every article kept by the declarative dedup comes from the stream. -/
theorem dedupFirstSeen_subset (l : List RawArticle) :
    ∀ x ∈ dedupFirstSeen l, x ∈ l := by
  induction l using dedupFirstSeen.induct with
  | case1 => intro x hx; simp [dedupFirstSeen] at hx
  | case2 a t ih =>
    intro x hx
    rw [dedupFirstSeen, List.mem_cons] at hx
    rcases hx with hx | hx
    · simp [hx]
    · exact List.mem_cons_of_mem a (List.mem_of_mem_filter (ih x hx))

/-- No two articles kept by the declarative dedup share a `url` key. -/
theorem dedupFirstSeen_pairwise (l : List RawArticle) :
    (dedupFirstSeen l).Pairwise (fun a b => urlKey a ≠ urlKey b) := by
  induction l using dedupFirstSeen.induct with
  | case1 => simp [dedupFirstSeen]
  | case2 a t ih =>
    rw [dedupFirstSeen, List.pairwise_cons]
    refine ⟨fun b hb => ?_, ih⟩
    have hmem := dedupFirstSeen_subset _ b hb
    have := List.of_mem_filter hmem
    simpa using this

/-- The declarative dedup keeps the stream order (it is a sublist). -/
theorem dedupFirstSeen_sublist (l : List RawArticle) :
    (dedupFirstSeen l).Sublist l := by
  induction l using dedupFirstSeen.induct with
  | case1 => simp [dedupFirstSeen]
  | case2 a t ih =>
    rw [dedupFirstSeen]
    exact List.Sublist.cons₂ a (ih.trans (List.filter_sublist t))

/-- C2: the collection returned by `get_market_news` is the first-seen
URL-dedup of the articles of the first three query terms in term-major order,
prefix-truncated to `max_articles` and then normalized: it equals the map
of `formatArticle` over that dedup prefix (first-seen wins), the kept raw
articles are pairwise distinct in `url` identity key and form a sublist
of the term-major provider stream (query-term order, then provider order
within a term), and the returned length is at most `max_articles`. -/
theorem get_market_news_dedup_invariants (outcomes : List FetchOutcome) (maxArticles : Nat) :
    getMarketNews outcomes maxArticles
        = ((dedupFirstSeen (flattenOk (outcomes.take 3))).take maxArticles).map formatArticle
    ∧ ((collectOutcomes (outcomes.take 3)).take maxArticles).Pairwise
        (fun a b => urlKey a ≠ urlKey b)
    ∧ (collectOutcomes (outcomes.take 3)).Sublist (flattenOk (outcomes.take 3))
    ∧ (getMarketNews outcomes maxArticles).length ≤ maxArticles := by
  refine ⟨?_, ?_, ?_, ?_⟩
  · rw [getMarketNews, collectOutcomes_eq_dedup]
  · have h := dedupFirstSeen_pairwise (flattenOk (outcomes.take 3))
    rw [← collectOutcomes_eq_dedup] at h
    exact h.sublist (List.take_sublist _ _)
  · rw [collectOutcomes_eq_dedup]; exact dedupFirstSeen_sublist _
  · simp [getMarketNews]

/-- If every outcome in a list is a transport error, the merge loop
leaves the accumulator unchanged. -/
theorem foldl_stepOutcome_all_err (outcomes : List FetchOutcome) (acc : List RawArticle)
    (h : ∀ r ∈ outcomes, r = FetchOutcome.transportError) :
    outcomes.foldl stepOutcome acc = acc := by
  induction outcomes generalizing acc with
  | nil => rfl
  | cons r t ih =>
    have hr := h r (List.mem_cons_self r t)
    subst hr
    exact ih acc (fun x hx => h x (List.mem_cons_of_mem _ hx))

/-- C6: the collector never raises to its caller.  (a) A transport
failure on one query term is absorbed locally: the merge loop over the
issued terms behaves as if the failed term were simply not there, so the
remaining terms are still processed.  (b) When every issued source fails,
`get_market_news` returns the empty collection rather than throwing. -/
theorem get_market_news_fail_soft :
    (∀ (pre post : List FetchOutcome) (acc : List RawArticle),
        (pre ++ FetchOutcome.transportError :: post).foldl stepOutcome acc
          = (pre ++ post).foldl stepOutcome acc)
    ∧ (∀ (outcomes : List FetchOutcome) (maxArticles : Nat),
        (∀ r ∈ outcomes, r = FetchOutcome.transportError) →
        getMarketNews outcomes maxArticles = []) := by
  constructor
  · intro pre post acc
    simp [List.foldl_append, stepOutcome]
  · intro outcomes maxArticles h
    rw [getMarketNews, collectOutcomes,
      foldl_stepOutcome_all_err _ _ (fun r hr => h r (List.take_subset 3 outcomes hr))]
    simp

/-- Witness for C6 at a concrete input: four failing terms, empty result. -/
theorem get_market_news_fail_soft_witness :
    getMarketNews
      [FetchOutcome.transportError, FetchOutcome.transportError,
       FetchOutcome.transportError, FetchOutcome.transportError] 10 = [] :=
  get_market_news_fail_soft.2 _ 10 (by decide)

/-- C7 counterexample: a provider article whose `author` key is present
with `null`.  The Python author lookup with empty default only covers an absent
key, so the normalized `author` is `None`, not a string — the claim that
every normalized field is a string (never null) fails on this input. -/
theorem format_article_null_counterexample :
    nullAuthorRaw.author = some none ∧ (formatArticle nullAuthorRaw).author = none :=
  ⟨rfl, rfl⟩

/-- A field read with empty-string default is a string whenever the key is not
present-with-null. -/
theorem pyGetEmpty_isSome (v : Option (Option String)) (h : v ≠ some none) :
    (pyGetEmpty v).isSome := by
  cases v with
  | none => rfl
  | some w =>
    cases w with
    | none => exact absurd rfl h
    | some s => rfl

/-- C7 (amended): every key absent from the provider payload is replaced
by the empty string; and whenever no field is present-with-null, all
seven normalized fields are strings.  (The original claim fails only on
present-with-null fields, per the counterexample.) -/
theorem format_article_defaults (a : RawArticle) :
    (a.title = none → (formatArticle a).title = some "")
    ∧ (a.description = none → (formatArticle a).description = some "")
    ∧ (a.content = none → (formatArticle a).content = some "")
    ∧ (a.url = none → (formatArticle a).url = some "")
    ∧ (a.source = none → (formatArticle a).source = some "")
    ∧ (a.publishedAt = none → (formatArticle a).publishedAt = some "")
    ∧ (a.author = none → (formatArticle a).author = some "")
    ∧ (a.title ≠ some none → a.description ≠ some none → a.content ≠ some none →
       a.url ≠ some none → a.source ≠ some (some none) → a.publishedAt ≠ some none →
       a.author ≠ some none →
        ((formatArticle a).title.isSome ∧ (formatArticle a).description.isSome
          ∧ (formatArticle a).content.isSome ∧ (formatArticle a).url.isSome
          ∧ (formatArticle a).source.isSome ∧ (formatArticle a).publishedAt.isSome
          ∧ (formatArticle a).author.isSome)) := by
  refine ⟨?_, ?_, ?_, ?_, ?_, ?_, ?_, ?_⟩
  · intro h; simp [formatArticle, pyGetEmpty, h]
  · intro h; simp [formatArticle, pyGetEmpty, h]
  · intro h; simp [formatArticle, pyGetEmpty, h]
  · intro h; simp [formatArticle, pyGetEmpty, h]
  · intro h; simp [formatArticle, h]
  · intro h; simp [formatArticle, pyGetEmpty, h]
  · intro h; simp [formatArticle, pyGetEmpty, h]
  · intro h1 h2 h3 h4 h5 h6 h7
    refine ⟨pyGetEmpty_isSome _ h1, pyGetEmpty_isSome _ h2, pyGetEmpty_isSome _ h3,
      pyGetEmpty_isSome _ h4, ?_, pyGetEmpty_isSome _ h6, pyGetEmpty_isSome _ h7⟩
    show ((formatArticle a).source).isSome
    cases hs : a.source with
    | none => simp [formatArticle, hs]
    | some nm =>
      have : nm ≠ some none := by
        intro hnm
        exact h5 (by rw [hs, hnm])
      simpa [formatArticle, hs] using pyGetEmpty_isSome nm this

/-- Witness for the amended C7 statement: an article with an absent
title and no null fields gets an empty-string title and all-string
output. -/
theorem format_article_defaults_witness :
    (formatArticle rawDefaultsW).title = some ""
    ∧ ((formatArticle rawDefaultsW).title.isSome
        ∧ (formatArticle rawDefaultsW).description.isSome
        ∧ (formatArticle rawDefaultsW).content.isSome
        ∧ (formatArticle rawDefaultsW).url.isSome
        ∧ (formatArticle rawDefaultsW).source.isSome
        ∧ (formatArticle rawDefaultsW).publishedAt.isSome
        ∧ (formatArticle rawDefaultsW).author.isSome) :=
  ⟨(format_article_defaults rawDefaultsW).1 rfl,
   (format_article_defaults rawDefaultsW).2.2.2.2.2.2.2 (by decide) (by decide) (by decide)
     (by decide) (by decide) (by decide) (by decide)⟩

/-- C3: for a series with at least 2 points (and a nonzero previous
close, which keeps the rational model faithful to the float division),
the symbol is included in the detector output iff the volume ratio
reaches `volume_threshold` or the absolute price change reaches
`price_change_threshold` — both comparisons inclusive (`≥`) — and when
both checks fire the emitted record carries both reasons, volume reason
first. -/
theorem identify_hot_stocks_threshold_iff (vt pt : ℚ) (sym : String) (rows : List Row)
    (h2 : 2 ≤ rows.length) (_hc0 : prevCloseOf rows ≠ 0) :
    (identify_hot_stocks [(sym, rows)] vt pt ≠ []
      ↔ vt ≤ volumeRatioOf rows ∨ pt ≤ pyAbs (priceChangeOf rows))
    ∧ (vt ≤ volumeRatioOf rows → pt ≤ pyAbs (priceChangeOf rows) →
        identify_hot_stocks [(sym, rows)] vt pt
          = [⟨sym, volumeRatioOf rows, priceChangeOf rows,
              [volumeReason (volumeRatioOf rows),
               priceChangeReason (priceChangeOf rows)]⟩]) := by
  have hlt : ¬ rows.length < 2 := Nat.not_lt.mpr h2
  constructor
  · by_cases hv : vt ≤ volumeRatioOf rows <;> by_cases hp : pt ≤ pyAbs (priceChangeOf rows) <;>
      simp [identify_hot_stocks, mkSignal, hlt, hv, hp]
  · intro hv hp
    simp [identify_hot_stocks, mkSignal, hlt, hv, hp]

/-- Witness for C3 on the example series of the spec (volume ratio 5, price
change 6%, thresholds 2.0 and 0.05): the symbol is included. -/
theorem identify_hot_stocks_threshold_iff_witness :
    identify_hot_stocks [("7203.T", rows3)] 2 (1/20) ≠ [] :=
  ((identify_hot_stocks_threshold_iff 2 (1/20) "7203.T" rows3 (by decide)
      (by rw [show prevCloseOf rows3 = (10 : ℚ) from rfl]; norm_num)).1).mpr
    (Or.inl (by
      rw [volumeRatioOf,
        show avgVolumeOf rows3
          = ((100 : ℚ) + (100 + (100 + (100 + 0)))) / ((4 : Nat) : ℚ) from rfl,
        show lastVolumeOf rows3 = (500 : ℚ) from rfl]
      norm_num))

/-- C4: when the trailing volume mean is zero, the guarded ratio is 0
(never a division error), and — for a positive volume threshold — the
symbol is included iff the price-change check fires on its own. -/
theorem identify_hot_stocks_zero_trailing_mean (vt pt : ℚ) (sym : String) (rows : List Row)
    (h2 : 2 ≤ rows.length) (havg : avgVolumeOf rows = 0) (hvt : 0 < vt)
    (_hc0 : prevCloseOf rows ≠ 0) :
    volumeRatioOf rows = 0
    ∧ (identify_hot_stocks [(sym, rows)] vt pt ≠ []
        ↔ pt ≤ pyAbs (priceChangeOf rows)) := by
  have hlt : ¬ rows.length < 2 := Nat.not_lt.mpr h2
  have hvr : volumeRatioOf rows = 0 := by simp [volumeRatioOf, havg]
  have hnv : ¬ vt ≤ volumeRatioOf rows := by
    rw [hvr]
    exact not_le.mpr hvt
  refine ⟨hvr, ?_⟩
  by_cases hp : pt ≤ pyAbs (priceChangeOf rows) <;>
    simp [identify_hot_stocks, mkSignal, hlt, hnv, hp]

/-- Witness for C4: all-but-last volumes zero, close moves 6%; ratio is 0
and with thresholds (2.0, 0.05) inclusion is decided by price alone. -/
theorem identify_hot_stocks_zero_trailing_mean_witness :
    volumeRatioOf rowsZeroVol = 0
    ∧ (identify_hot_stocks [("7203.T", rowsZeroVol)] 2 (1/20) ≠ []
        ↔ (1/20 : ℚ) ≤ pyAbs (priceChangeOf rowsZeroVol)) :=
  identify_hot_stocks_zero_trailing_mean 2 (1/20) "7203.T" rowsZeroVol (by decide)
    (by rw [show avgVolumeOf rowsZeroVol = ((0 : ℚ) + 0) / ((1 : Nat) : ℚ) from rfl]; norm_num)
    (by norm_num)
    (by rw [show prevCloseOf rowsZeroVol = (10 : ℚ) from rfl]; norm_num)

/-- The empty needle is a substring of every string, as in Python. -/
theorem strIn_empty_needle (t : String) : strIn "" t = true := by
  rw [strIn]
  cases h : t.data with
  | nil => rfl
  | cons c cs => simp [List.tails, List.isPrefixOf]

/-- A filterMap whose body keeps exactly the elements satisfying a
Boolean test is the filter followed by the projection. -/
theorem filterMap_keep_eq {α β : Type} (p : α → Bool) (g : α → β) (l : List α) :
    l.filterMap (fun a => if p a then some (g a) else none) = (l.filter p).map g := by
  induction l with
  | nil => rfl
  | cons a t ih =>
    by_cases h : p a = true
    · simp [List.filterMap_cons, List.filter_cons, h, ih]
    · simp [List.filterMap_cons, List.filter_cons, h, ih]

/-- A filterMap whose body skips exactly the elements satisfying a
Boolean test is the filter by the negated test followed by the
projection. -/
theorem filterMap_skip_eq {α β : Type} (p : α → Bool) (g : α → β) (l : List α) :
    l.filterMap (fun a => if p a then none else some (g a))
      = (l.filter (fun a => !(p a))).map g := by
  induction l with
  | nil => rfl
  | cons a t ih =>
    by_cases h : p a = true
    · simp [List.filterMap_cons, List.filter_cons, h, ih]
    · simp [List.filterMap_cons, List.filter_cons, h, ih]

/-- `link_news_to_stock` characterized: it is the input filtered by the
substring condition of the code (first-dot prefix or whole symbol in the
title), projected in input order. -/
theorem link_filter_map_eq (symbol : String) (articles : List PyArticle) :
    link_news_to_stock symbol articles
      = (articles.filter (fun a =>
          strIn (firstDotField symbol) (a.title.getD "") || strIn symbol (a.title.getD ""))).map
          relatedOf := by
  rw [show link_news_to_stock symbol articles
      = articles.filterMap (fun a =>
          if strIn (firstDotField symbol) (a.title.getD "") || strIn symbol (a.title.getD "")
          then some (relatedOf a) else none) from rfl,
    filterMap_keep_eq]

/-- C5 counterexample: for the multi-dot symbol `"A.B.C"` and the title
`"xAy"`, the code links the item (it matches on `"A"`, the part before
the FIRST dot) while the claimed rule (symbol, or symbol with the text
after the LAST dot stripped, i.e. `"A.B"`) matches nothing — so the
claimed iff is false at this input. -/
theorem link_news_to_stock_last_dot_counterexample :
    link_news_to_stock "A.B.C" [artXAy] = [⟨"xAy", "", ""⟩]
    ∧ ¬ specLinkCond "A.B.C" "xAy" := by
  constructor
  · rfl
  · rw [specLinkCond]
    decide

/-- C5 (amended): an item is linked iff the symbol, or the part of the
symbol before its FIRST dot, is a literal case-sensitive substring of
the title (for single-dot symbols this coincides with stripping the
exchange suffix); the result is an empty list — never null — when
nothing matches, and follows the input order. -/
theorem link_news_to_stock_first_dot_rule (symbol : String) (articles : List PyArticle) :
    link_news_to_stock symbol articles
      = (articles.filter (fun a =>
          strIn (firstDotField symbol) (a.title.getD "") || strIn symbol (a.title.getD ""))).map
          relatedOf :=
  link_filter_map_eq symbol articles

/-- C10: with the empty string as symbol, every item is linked — the
empty string (also element 0 of the dot-split of the empty symbol) is a substring of
every title, so the whole input is projected in order. -/
theorem link_news_to_stock_empty_symbol (articles : List PyArticle) :
    link_news_to_stock "" articles = articles.map relatedOf := by
  rw [link_filter_map_eq]
  have hall : ∀ a ∈ articles,
      (strIn (firstDotField "") (a.title.getD "") || strIn "" (a.title.getD "")) = true := by
    intro a _
    rw [show firstDotField "" = "" from rfl, strIn_empty_needle]
    rfl
  rw [List.filter_eq_self.mpr hall]

/-- C9: `summarize_multiple_articles` silently omits every item whose
content and description are both empty (no placeholder entry), and
returns exactly the items with non-empty content or description, in
order, each enriched with a `summary` key; the output can therefore be
strictly shorter than the input (second conjunct: a single all-empty item
yields the empty list). -/
theorem summarize_multiple_articles_omits_empty :
    (∀ (f : String → String → String) (articles : List PyArticle),
      summarize_multiple_articles f articles
        = (articles.filter (fun a =>
            (!(a.content.getD "" == "")) || (!(a.description.getD "" == "")))).map
            (fun a => { a with
              summary := some (f (effectiveContent a) (a.title.getD "")) }))
    ∧ summarize_multiple_articles (fun _ _ => "S") [emptyPyArticle] = [] := by
  constructor
  · intro f articles
    rw [show summarize_multiple_articles f articles
        = articles.filterMap (fun a =>
            if effectiveContent a == "" then none
            else some { a with
              summary := some (f (effectiveContent a) (a.title.getD "")) }) from rfl,
      filterMap_skip_eq]
    have hpred : (fun (a : PyArticle) => !(effectiveContent a == ""))
        = (fun a => (!(a.content.getD "" == "")) || (!(a.description.getD "" == ""))) := by
      funext a
      rw [effectiveContent]
      by_cases hc : (a.content.getD "" == "") = true <;> simp [hc]
    rw [hpred]
  · rfl

/-- A string contains itself at the head of an append. -/
theorem strContains_start (n b : String) : strContains n (n ++ b) :=
  ⟨"", b, String.ext (by simp [String.data_append])⟩

/-- Containment is preserved by prepending. -/
theorem strContains_left (n g h : String) : strContains n h → strContains n (g ++ h) := by
  rintro ⟨p, q, hh⟩
  exact ⟨g ++ p, q, by rw [hh]; simp [String.append_assoc]⟩

/-- Containment is preserved by appending. -/
theorem strContains_right (n h g : String) : strContains n h → strContains n (h ++ g) := by
  rintro ⟨p, q, hh⟩
  exact ⟨p, q ++ g, by rw [hh]; simp [String.append_assoc]⟩

/-- A string containing a non-empty needle is non-empty. -/
theorem strContains_ne_empty (n h : String) (hc : strContains n h) (hn : n ≠ "") :
    h ≠ "" := by
  rcases hc with ⟨p, q, hh⟩
  intro h0
  rw [hh] at h0
  have hdata : (p ++ n ++ q).data = [] := by rw [h0]
  rw [String.data_append, String.data_append] at hdata
  rcases List.append_eq_nil.mp hdata with ⟨h1, _⟩
  rcases List.append_eq_nil.mp h1 with ⟨_, h2⟩
  exact hn (String.ext (h2.trans rfl))

/-- C8: both report composers are total over any well-formed input —
including empty article and anomaly sequences — and always return
non-empty text containing the header title, the date, and the fixed
disclaimer footer; item fields that are absent render as the literal
placeholders `Unknown` / `No summary` (last conjunct, for every loop
index). -/
theorem report_composers_total (today daily_summary : String)
    (summarized_articles : List PyArticle) (hot_stocks : List ReportStock) :
    create_market_report_email today daily_summary summarized_articles ≠ ""
    ∧ strContains "市場情報自動収集・分析システム - 日次レポート"
        (create_market_report_email today daily_summary summarized_articles)
    ∧ strContains today (create_market_report_email today daily_summary summarized_articles)
    ∧ strContains "※ 投資判断は必ずご自身で行ってください。"
        (create_market_report_email today daily_summary summarized_articles)
    ∧ create_hot_stock_report_email today hot_stocks ≠ ""
    ∧ strContains "動きのあった会社・注目銘柄自動抽出レポート"
        (create_hot_stock_report_email today hot_stocks)
    ∧ strContains today (create_hot_stock_report_email today hot_stocks)
    ∧ strContains "※ 本レポートは自動生成です。投資判断は必ずご自身で行ってください。"
        (create_hot_stock_report_email today hot_stocks)
    ∧ (∀ i : Nat, strContains "Unknown" (mArticleBlock i emptyPyArticle)
        ∧ strContains "No summary" (mArticleBlock i emptyPyArticle)) := by
  have hmHdr : strContains "市場情報自動収集・分析システム - 日次レポート"
      (create_market_report_email today daily_summary summarized_articles) := by
    simp only [create_market_report_email, String.append_assoc]
    rw [show ("\n市場情報自動収集・分析システム - 日次レポート\n" : String)
        = "\n" ++ ("市場情報自動収集・分析システム - 日次レポート" ++ "\n") from rfl,
      String.append_assoc]
    repeat (first | exact strContains_start _ _ | apply strContains_left)
  have hhHdr : strContains "動きのあった会社・注目銘柄自動抽出レポート"
      (create_hot_stock_report_email today hot_stocks) := by
    simp only [create_hot_stock_report_email, String.append_assoc]
    rw [show ("\n動きのあった会社・注目銘柄自動抽出レポート\n" : String)
        = "\n" ++ ("動きのあった会社・注目銘柄自動抽出レポート" ++ "\n") from rfl,
      String.append_assoc]
    repeat (first | exact strContains_start _ _ | apply strContains_left)
  refine ⟨strContains_ne_empty _ _ hmHdr (by decide), hmHdr, ?_, ?_,
    strContains_ne_empty _ _ hhHdr (by decide), hhHdr, ?_, ?_, ?_⟩
  · simp only [create_market_report_email, String.append_assoc]
    repeat (first | exact strContains_start _ _ | apply strContains_left)
  · simp only [create_market_report_email, String.append_assoc]
    rw [show ("\n\n※ このレポートは自動生成されています。\n※ 投資判断は必ずご自身で行ってください。\n※ 本システムは投資助言を行うものではありません。\n\n" : String)
        = "\n\n※ このレポートは自動生成されています。\n"
          ++ ("※ 投資判断は必ずご自身で行ってください。"
            ++ "\n※ 本システムは投資助言を行うものではありません。\n\n") from rfl,
      String.append_assoc]
    repeat (first | exact strContains_start _ _ | apply strContains_left)
  · simp only [create_hot_stock_report_email, String.append_assoc]
    repeat (first | exact strContains_start _ _ | apply strContains_left)
  · simp only [create_hot_stock_report_email, String.append_assoc]
    rw [show ("\n\n※ 本レポートは自動生成です。投資判断は必ずご自身で行ってください。\n\n" : String)
        = "\n\n" ++ ("※ 本レポートは自動生成です。投資判断は必ずご自身で行ってください。" ++ "\n\n") from rfl,
      String.append_assoc]
    repeat (first | exact strContains_start _ _ | apply strContains_left)
  · intro i
    constructor
    · simp only [mArticleBlock, emptyPyArticle, Option.getD_none, String.append_assoc]
      repeat (first | exact strContains_start _ _ | apply strContains_left)
    · simp only [mArticleBlock, emptyPyArticle, Option.getD_none, String.append_assoc]
      repeat (first | exact strContains_start _ _ | apply strContains_left)
